import Mathlib

/-!
Shallow embedding of the queue-print backend (src/queue-print-backend/index.js).

The backend is a single-process Express server with global mutable state:
`activeSessionId`, `sessionFiles` (an object mapping session id to an array
of file records), `container`, and `fileUploadDir`.  We model this state as
a record `ServerState` and each HTTP handler (and each deferred callback
registered with `setTimeout`) as a pure function on `ServerState`.

Handlers that contain an `await` are split into a `...Begin` part (the code
that runs before the awaited promise) and a `...Finish` part (the code after
it), so that interleavings at the await point can be expressed: other
requests can be processed between the two halves, exactly as in Node's
single-threaded event loop.

The filesystem is modelled as a set of absolute path strings (`disk` for
files, `dirs` for directories) together with the process working directory
`cwd` and the backend source directory `dirname` (the JS `__dirname`), since
the source mixes `path.join(__dirname, dir)` (multer storage, absolute) with
bare relative paths (`cleanupSessionFiles`, resolved against the cwd).
-/

/-- The implicit lifecycle phase of the session state machine.  The JS code
has no explicit phase variable; the phase records which part of a handler is
in flight (between a `Begin` and its `Finish` the phase is `provisioning`
or `ending`). -/
inductive Phase where
  | idle
  | provisioning
  | active
  | ending
deriving DecidableEq, Repr

/-- One entry of the `sessionFiles[sessionId]` array.  Numeric identifiers
stand in for the uuid strings of the source. -/
structure FileRecord where
  id : Nat
  filename : String
  originalname : String
  path : String
  ticketNumber : Nat
deriving DecidableEq, Repr

/-- Socket.io notifications emitted with `io.emit`. -/
inductive Event where
  | sessionStarted (sid : Nat)
  | sessionEnded (sid : Nat)
  | fileUploaded (sid : Nat) (fid : Nat)
  | fileDeleted (sid : Nat) (fid : Nat)
deriving DecidableEq, Repr

/-- The global mutable state of the backend process, plus the modelled
environment (filesystem, docker image store). -/
structure ServerState where
  dirname : String
  cwd : String
  activeSessionId : Option Nat
  sessionFiles : List (Nat × List FileRecord)
  container : Option Nat
  fileUploadDir : Option String
  pendingEnd : Option (Nat × Option String)
  disk : List String
  dirs : List String
  dockerImages : List String
  events : List Event
  timers : List (Nat × Nat)
  phase : Phase
deriving DecidableEq, Repr

/-- HTTP responses (and the multer middleware error) of the handlers. -/
inductive Resp where
  | okStarted (sid : Nat)
  | conflict
  | provisioningFailed
  | uploaded (ticket : Nat)
  | invalidSession
  | noFile
  | multerError
  | fileNotFound
  | sentSim
  | sentPrinter
  | printFailed
  | okEnded
  | noSession
  | endError
deriving DecidableEq, Repr

/-- Outcome of the simulation-sink `setTimeout` callback in POST /print-job.
`typeError` models the uncaught `TypeError` raised when
`sessionFiles[sessionId]` is `undefined` (no optional chaining there). -/
inductive SinkOutcome where
  | removed
  | noop
  | typeError
deriving DecidableEq, Repr

/-- Outcome of one call to `ensureBaseImage`. -/
inductive BuildOutcome where
  | skipped
  | built
  | buildFailed
deriving DecidableEq, Repr

/-- The multipart file of an upload request: original name, the random
component multer puts in front of the stored filename, and the uuid chosen
for the queue record. -/
structure UploadFile where
  originalname : String
  storedUuid : String
  recordId : Nat
deriving DecidableEq, Repr

/-- `sessionFiles[sid]` (JS property read: `undefined` when absent). -/
def lookupSession (m : List (Nat × List FileRecord)) (sid : Nat) :
    Option (List FileRecord) :=
  match m with
  | [] => none
  | (k, v) :: rest => if k = sid then some v else lookupSession rest sid

/-- `sessionFiles[sid] = v` (JS property write: replace or add). -/
def setSession (m : List (Nat × List FileRecord)) (sid : Nat)
    (v : List FileRecord) : List (Nat × List FileRecord) :=
  match m with
  | [] => [(sid, v)]
  | (k, w) :: rest =>
      if k = sid then (sid, v) :: rest else (k, w) :: setSession rest sid v

/-- `delete sessionFiles[sid]`. -/
def deleteSession (m : List (Nat × List FileRecord)) (sid : Nat) :
    List (Nat × List FileRecord) :=
  match m with
  | [] => []
  | (k, w) :: rest =>
      if k = sid then rest else (k, w) :: deleteSession rest sid

/-- Add a path to the filesystem set (idempotent, like `mkdirSync` with
`recursive: true` or overwriting a file). -/
def insertString (s : List String) (x : String) : List String :=
  if s.contains x then s else s ++ [x]

/-- `path.join` restricted to the shapes the source uses. -/
def pathJoin (a b : String) : String := a ++ "/" ++ b

/-- Leading-segment test on character lists. -/
def charsStarts : List Char → List Char → Bool
  | [], _ => true
  | _ :: _, [] => false
  | a :: as, b :: bs => a = b && charsStarts as bs

/-- `s.startsWith pre`, phrased over the underlying character lists so the
kernel can evaluate it. -/
def strStarts (pre s : String) : Bool := charsStarts pre.data s.data

/-- Node resolves a relative path against the process working directory. -/
def resolvePath (cwd p : String) : String :=
  if strStarts "/" p then p else pathJoin cwd p

/-- `findIndex` followed by `splice(index, 1)`: drop the first record with
the given id. -/
def removeFirstById (files : List FileRecord) (fid : Nat) : List FileRecord :=
  match files with
  | [] => []
  | f :: rest => if f.id = fid then rest else f :: removeFirstById rest fid

/-- Number of records in the array carrying a given id. -/
def countById (files : List FileRecord) (fid : Nat) : Nat :=
  (files.filter (fun f => f.id = fid)).length

/-- `findIndex(...) > -1` for the record with the given id. -/
def hasId (files : List FileRecord) (fid : Nat) : Bool :=
  files.any (fun f => f.id = fid)

/-- How many times a given notification has been emitted. -/
def eventCount (es : List Event) (e : Event) : Nat :=
  (es.filter (fun x => x = e)).length

def BASE_IMAGE_NAME : String := "queue-print-base"

/-- `ensureBaseImage`: list the daemon's images; skip the build when the
base image is already present, otherwise build it (`buildOk` models whether
the docker build promise resolves or rejects). -/
def ensureBaseImage (st : ServerState) (buildOk : Bool) :
    BuildOutcome × ServerState :=
  if st.dockerImages.contains BASE_IMAGE_NAME then
    (.skipped, st)
  else if buildOk then
    (.built, { st with dockerImages := BASE_IMAGE_NAME :: st.dockerImages })
  else
    (.buildFailed, st)

/-- Total successful builds over a sequence of `ensureBaseImage` calls. -/
def builtCount (st : ServerState) (bs : List Bool) : Nat :=
  match bs with
  | [] => 0
  | b :: rest =>
      let r := ensureBaseImage st b
      (if r.1 = BuildOutcome.built then 1 else 0) + builtCount r.2 rest

/-- POST /start-session, up to the `await createAndStartContainer`: the
conflict guard, then `activeSessionId`, `sessionFiles[sessionId] = []` and
`fileUploadDir` are set before any container work happens. -/
def startSessionBegin (st : ServerState) (sid : Nat) :
    Option Resp × ServerState :=
  if st.activeSessionId.isSome then
    (some .conflict, st)
  else
    (none,
     { st with
        activeSessionId := some sid,
        sessionFiles := setSession st.sessionFiles sid [],
        fileUploadDir := some ("uploads/session_" ++ toString sid),
        phase := .provisioning })

/-- POST /start-session after the awaited provisioning: `provision` is
`some cid` when `createAndStartContainer` resolved with a container, `none`
when it threw.  The catch block resets `activeSessionId`, `fileUploadDir`
and the container, but does not touch `sessionFiles`. -/
def startSessionFinish (st : ServerState) (sid : Nat) (provision : Option Nat) :
    Resp × ServerState :=
  match provision with
  | some cid =>
      (.okStarted sid,
       { st with
          container := some cid,
          events := st.events ++ [.sessionStarted sid],
          phase := .active })
  | none =>
      (.provisioningFailed,
       { st with
          activeSessionId := none,
          fileUploadDir := none,
          container := none,
          phase := .idle })

/-- POST /upload: the multer disk-storage middleware runs first (writing the
payload into `path.join(__dirname, fileUploadDir)` whenever a file is
attached and `fileUploadDir` is set), and only then does the handler check
the query `sessionId` against `activeSessionId`. -/
def upload (st : ServerState) (reqSid : Option Nat)
    (fileArg : Option UploadFile) : Resp × ServerState :=
  match fileArg with
  | some f =>
      match st.fileUploadDir with
      | none => (.multerError, st)
      | some relDir =>
          let dirAbs := pathJoin st.dirname relDir
          let storedName := f.storedUuid ++ "-" ++ f.originalname
          let p := pathJoin dirAbs storedName
          let st1 : ServerState :=
            { st with
               dirs := insertString st.dirs dirAbs,
               disk := insertString st.disk p }
          match reqSid, st1.activeSessionId with
          | some rs, some asid =>
              if rs = asid then
                let files := (lookupSession st1.sessionFiles asid).getD []
                let ticket := files.length + 1
                let rcd : FileRecord :=
                  { id := f.recordId, filename := storedName,
                    originalname := f.originalname, path := p,
                    ticketNumber := ticket }
                (.uploaded ticket,
                 { st1 with
                    sessionFiles :=
                      setSession st1.sessionFiles asid (files ++ [rcd]),
                    events := st1.events ++ [.fileUploaded asid f.recordId],
                    timers := st1.timers ++ [(asid, f.recordId)] })
              else (.invalidSession, st1)
          | _, _ => (.invalidSession, st1)
  | none =>
      match reqSid, st.activeSessionId with
      | some rs, some asid =>
          if rs = asid then (.noFile, st) else (.invalidSession, st)
      | _, _ => (.invalidSession, st)

/-- The TTL `setTimeout` callback registered by POST /upload.  It closes
over the session id and the created record (`newFile`): if the session entry
still exists and still holds a record with that id, it unlinks the stored
payload, splices the record out and emits `file-deleted`; otherwise it does
nothing. -/
def ttlFire (st : ServerState) (sid : Nat) (r : FileRecord) : ServerState :=
  match lookupSession st.sessionFiles sid with
  | none => st
  | some files =>
      if hasId files r.id then
        { st with
           disk := st.disk.filter (fun p => p ≠ r.path),
           sessionFiles :=
             setSession st.sessionFiles sid (removeFirstById files r.id),
           events := st.events ++ [.fileDeleted sid r.id] }
      else st

/-- The simulation-sink `setTimeout` callback of POST /print-job.  Unlike
the TTL callback it reads `sessionFiles[sessionId].findIndex` without a
guard, so when the session entry has been deleted it raises a `TypeError`
instead of no-opping. -/
def sinkFire (st : ServerState) (sid : Nat) (r : FileRecord) :
    SinkOutcome × ServerState :=
  match lookupSession st.sessionFiles sid with
  | none => (.typeError, st)
  | some files =>
      if hasId files r.id then
        (.removed,
         { st with
            sessionFiles :=
              setSession st.sessionFiles sid (removeFirstById files r.id),
            disk := st.disk.filter (fun p => p ≠ r.path),
            events := st.events ++ [.fileDeleted sid r.id] })
      else (.noop, st)

/-- POST /print-job.  `spoolerOk` models whether the `lp` shell command
succeeds.  For the simulation sink the handler responds immediately and the
removal is deferred to `sinkFire`; for a real target a failing spooler makes
the handler return 500 before any mutation, while a succeeding one removes
the record, unlinks the payload and notifies. -/
def printJob (st : ServerState) (reqSid : Option Nat) (fid : Nat)
    (printerName : String) (spoolerOk : Bool) : Resp × ServerState :=
  match reqSid, st.activeSessionId with
  | some rs, some asid =>
      if rs = asid then
        let files := (lookupSession st.sessionFiles asid).getD []
        match files.find? (fun f => f.id = fid) with
        | none => (.fileNotFound, st)
        | some fileToPrint =>
            if printerName = "Secure_Virtual_Printer" then
              (.sentSim, st)
            else if spoolerOk then
              if hasId files fileToPrint.id then
                (.sentPrinter,
                 { st with
                    sessionFiles :=
                      setSession st.sessionFiles asid
                        (removeFirstById files fileToPrint.id),
                    disk := st.disk.filter (fun p => p ≠ fileToPrint.path),
                    events := st.events ++ [.fileDeleted asid fileToPrint.id] })
              else (.sentPrinter, st)
            else (.printFailed, st)
      else (.invalidSession, st)
  | _, _ => (.invalidSession, st)

/-- POST /end-session up to the first `await`: the no-session guard, then
`activeSessionId` and `fileUploadDir` are cleared immediately, with the old
values saved in locals (modelled by `pendingEnd`) for the cleanup steps. -/
def endSessionBegin (st : ServerState) : Option Resp × ServerState :=
  match st.activeSessionId with
  | none => (some .noSession, st)
  | some sid =>
      (none,
       { st with
          activeSessionId := none,
          fileUploadDir := none,
          pendingEnd := some (sid, st.fileUploadDir),
          phase := .ending })

/-- `cleanupSessionFiles(sessionId, directory)`: `directory` is the bare
relative string `uploads/session_<id>`, so `fs.existsSync` resolves it
against the process cwd; only when that resolved directory exists are the
files inside it unlinked and the directory removed.  The in-memory entry is
deleted unconditionally. -/
def cleanupSessionFiles (st : ServerState) (sid : Nat) (dir : Option String) :
    ServerState :=
  let st1 :=
    match dir with
    | none => st
    | some d =>
        let resolved := resolvePath st.cwd d
        if st.dirs.contains resolved then
          { st with
             disk := st.disk.filter
               (fun p => ¬ strStarts (resolved ++ "/") p),
             dirs := st.dirs.filter (fun q => q ≠ resolved) }
        else st
  { st1 with sessionFiles := deleteSession st1.sessionFiles sid }

/-- POST /end-session after the guard: container teardown (its errors are
swallowed inside `stopAndRemoveContainer`), then file cleanup.  `cleanupOk`
models whether the synchronous fs calls inside `cleanupSessionFiles` throw;
when they do, the catch block answers 500 without emitting `session-ended`
and without deleting the in-memory entry. -/
def endSessionFinish (st : ServerState) (cleanupOk : Bool) :
    Resp × ServerState :=
  match st.pendingEnd with
  | none => (.endError, st)
  | some (sid, dir) =>
      let st1 : ServerState := { st with container := none }
      if cleanupOk then
        let st2 := cleanupSessionFiles st1 sid dir
        (.okEnded,
         { st2 with
            events := st2.events ++ [.sessionEnded sid],
            phase := .idle,
            pendingEnd := none })
      else
        (.endError, { st1 with phase := .idle, pendingEnd := none })

/-- Fresh process state. -/
def initState (dirname cwd : String) : ServerState :=
  { dirname := dirname
    cwd := cwd
    activeSessionId := none
    sessionFiles := []
    container := none
    fileUploadDir := none
    pendingEnd := none
    disk := []
    dirs := []
    dockerImages := []
    events := []
    timers := []
    phase := .idle }

/-! ### Helper lemmas about the state operations -/

theorem lookup_setSession_same (m : List (Nat × List FileRecord)) (sid : Nat)
    (v : List FileRecord) :
    lookupSession (setSession m sid v) sid = some v := by
  induction m with
  | nil => simp [setSession, lookupSession]
  | cons kv rest ih =>
      obtain ⟨k, w⟩ := kv
      by_cases h : k = sid
      · simp [setSession, lookupSession, h]
      · simp [setSession, lookupSession, h, ih]

theorem lookup_none_of_not_mem (m : List (Nat × List FileRecord)) (sid : Nat)
    (h : sid ∉ m.map Prod.fst) :
    lookupSession m sid = none := by
  induction m with
  | nil => rfl
  | cons kv rest ih =>
      obtain ⟨k, w⟩ := kv
      simp only [List.map_cons, List.mem_cons, not_or] at h
      have hk : k ≠ sid := fun e => h.1 e.symm
      simp [lookupSession, hk, ih h.2]

theorem lookup_deleteSession_same (m : List (Nat × List FileRecord)) (sid : Nat)
    (h : (m.map Prod.fst).Nodup) :
    lookupSession (deleteSession m sid) sid = none := by
  induction m with
  | nil => rfl
  | cons kv rest ih =>
      obtain ⟨k, w⟩ := kv
      simp only [List.map_cons, List.nodup_cons] at h
      by_cases hk : k = sid
      · subst hk
        simp only [deleteSession, if_pos rfl]
        exact lookup_none_of_not_mem rest k h.1
      · simp [deleteSession, hk, lookupSession, ih h.2]

theorem countById_cons (f : FileRecord) (rest : List FileRecord) (fid : Nat) :
    countById (f :: rest) fid =
      (if f.id = fid then 1 else 0) + countById rest fid := by
  by_cases h : f.id = fid
  · simp [countById, List.filter_cons, h]
    omega
  · simp [countById, List.filter_cons, h]

theorem countById_removeFirstById (files : List FileRecord) (fid : Nat) :
    countById (removeFirstById files fid) fid = countById files fid - 1 := by
  induction files with
  | nil => rfl
  | cons f rest ih =>
      by_cases h : f.id = fid
      · simp [removeFirstById, h, countById_cons, countById]
      · simp [removeFirstById, h, countById_cons, ih]

theorem hasId_false_of_countById_zero (files : List FileRecord) (fid : Nat)
    (h : countById files fid = 0) :
    hasId files fid = false := by
  induction files with
  | nil => rfl
  | cons f rest ih =>
      rw [countById_cons] at h
      by_cases hf : f.id = fid
      · simp [hf] at h
      · simp only [if_neg hf, Nat.zero_add] at h
        simp [hasId, hf, ih h] at *
        intro x hx
        have := ih h
        simp [hasId] at this
        exact this x hx

theorem hasId_true_of_countById_pos (files : List FileRecord) (fid : Nat)
    (h : 0 < countById files fid) :
    hasId files fid = true := by
  induction files with
  | nil => simp [countById] at h
  | cons f rest ih =>
      rw [countById_cons] at h
      by_cases hf : f.id = fid
      · simp [hasId, hf]
      · simp only [if_neg hf, Nat.zero_add] at h
        have := ih h
        simp [hasId] at this ⊢
        obtain ⟨x, hx, he⟩ := this
        exact Or.inr ⟨x, hx, he⟩

theorem eventCount_append (es xs : List Event) (e : Event) :
    eventCount (es ++ xs) e = eventCount es e + eventCount xs e := by
  simp [eventCount, List.filter_append]

theorem ttlFire_of_lookup_none (st : ServerState) (sid : Nat) (r : FileRecord)
    (h : lookupSession st.sessionFiles sid = none) :
    ttlFire st sid r = st := by
  simp [ttlFire, h]

theorem ttlFire_of_hasId_false (st : ServerState) (sid : Nat) (r : FileRecord)
    (files : List FileRecord)
    (h : lookupSession st.sessionFiles sid = some files)
    (h2 : hasId files r.id = false) :
    ttlFire st sid r = st := by
  simp [ttlFire, h, h2]

theorem sinkFire_of_lookup_none (st : ServerState) (sid : Nat) (r : FileRecord)
    (h : lookupSession st.sessionFiles sid = none) :
    sinkFire st sid r = (.typeError, st) := by
  simp [sinkFire, h]

theorem sinkFire_of_hasId_false (st : ServerState) (sid : Nat) (r : FileRecord)
    (files : List FileRecord)
    (h : lookupSession st.sessionFiles sid = some files)
    (h2 : hasId files r.id = false) :
    sinkFire st sid r = (.noop, st) := by
  simp [sinkFire, h, h2]

theorem cleanup_sessionFiles_eq (st : ServerState) (sid : Nat)
    (dir : Option String) :
    (cleanupSessionFiles st sid dir).sessionFiles =
      deleteSession st.sessionFiles sid := by
  cases dir with
  | none => rfl
  | some d =>
      simp only [cleanupSessionFiles]
      split <;> rfl

theorem cleanup_events_eq (st : ServerState) (sid : Nat) (dir : Option String) :
    (cleanupSessionFiles st sid dir).events = st.events := by
  cases dir with
  | none => rfl
  | some d =>
      simp only [cleanupSessionFiles]
      split <;> rfl

theorem mem_insertString (s : List String) (x : String) :
    x ∈ insertString s x := by
  unfold insertString
  split
  · next h => exact List.mem_of_elem_eq_true h
  · simp

theorem mem_insertString_of_mem (s : List String) (x y : String)
    (h : y ∈ s) : y ∈ insertString s x := by
  unfold insertString
  split
  · exact h
  · exact List.mem_append_left _ h

theorem mem_disk_ttlFire (st : ServerState) (sid : Nat) (r : FileRecord)
    (q : String) (hq : q ∈ st.disk) (hne : q ≠ r.path) :
    q ∈ (ttlFire st sid r).disk := by
  unfold ttlFire
  cases hlk : lookupSession st.sessionFiles sid with
  | none => exact hq
  | some files =>
      by_cases hh : hasId files r.id = true
      · simp [hh, List.mem_filter, hq, hne]
      · simp only [Bool.not_eq_true] at hh
        simp [hh, hq]

theorem mem_disk_sinkFire (st : ServerState) (sid : Nat) (r : FileRecord)
    (q : String) (hq : q ∈ st.disk) (hne : q ≠ r.path) :
    q ∈ (sinkFire st sid r).2.disk := by
  unfold sinkFire
  cases hlk : lookupSession st.sessionFiles sid with
  | none => exact hq
  | some files =>
      by_cases hh : hasId files r.id = true
      · simp [hh, List.mem_filter, hq, hne]
      · simp only [Bool.not_eq_true] at hh
        simp [hh, hq]

theorem upload_preserves_phase (st : ServerState) (reqSid : Option Nat)
    (fileArg : Option UploadFile) :
    (upload st reqSid fileArg).2.phase = st.phase := by
  unfold upload
  cases fileArg with
  | none =>
      cases reqSid <;> cases h : st.activeSessionId <;> simp
      split <;> rfl
  | some f =>
      cases hd : st.fileUploadDir with
      | none => rfl
      | some d =>
          cases reqSid <;> cases h : st.activeSessionId <;> simp
          split <;> rfl

theorem printJob_preserves_phase (st : ServerState) (reqSid : Option Nat)
    (fid : Nat) (printerName : String) (spoolerOk : Bool) :
    (printJob st reqSid fid printerName spoolerOk).2.phase = st.phase := by
  unfold printJob
  cases reqSid <;> cases h : st.activeSessionId <;> simp
  split
  · split
    · rfl
    · split
      · rfl
      · split
        · split <;> rfl
        · rfl
  · rfl

/-! ### Concrete fixtures used by witnesses and counterexamples -/

def fileA : UploadFile :=
  { originalname := "report.pdf", storedUuid := "u1", recordId := 10 }

def fileB : UploadFile :=
  { originalname := "photo.jpg", storedUuid := "u2", recordId := 11 }

def fileC : UploadFile :=
  { originalname := "notes.txt", storedUuid := "u3", recordId := 12 }

def fileD : UploadFile :=
  { originalname := "form.pdf", storedUuid := "u4", recordId := 13 }

/-- Fresh process whose working directory coincides with `__dirname`. -/
def bootState : ServerState := initState "/app/backend" "/app/backend"

/-- Mid-provisioning: the conflict guard has passed and the globals are set,
but `createAndStartContainer` has not resolved yet. -/
def provState : ServerState := (startSessionBegin bootState 1).2

/-- Session 1 fully started (container 7 provisioned). -/
def activeState : ServerState := (startSessionFinish provState 1 (some 7)).2

/-- Session 1 with one uploaded file. -/
def oneFileState : ServerState := (upload activeState (some 1) (some fileA)).2

/-- The queue record created by uploading `fileA` into session 1. -/
def recA : FileRecord :=
  { id := 10, filename := "u1-report.pdf", originalname := "report.pdf",
    path := "/app/backend/uploads/session_1/u1-report.pdf", ticketNumber := 1 }

/-- The queue record created by uploading `fileB` as the second file. -/
def recB : FileRecord :=
  { id := 11, filename := "u2-photo.jpg", originalname := "photo.jpg",
    path := "/app/backend/uploads/session_1/u2-photo.jpg", ticketNumber := 2 }

/-- The queue record created by uploading `fileC` as the third file. -/
def recC : FileRecord :=
  { id := 12, filename := "u3-notes.txt", originalname := "notes.txt",
    path := "/app/backend/uploads/session_1/u3-notes.txt", ticketNumber := 3 }

/-- Session 1 with files A, B, C uploaded in that order. -/
def threeFileState : ServerState :=
  (upload (upload oneFileState (some 1) (some fileB)).2 (some 1) (some fileC)).2

/-- `threeFileState` after file B was removed by a successful real-printer
dispatch. -/
def afterRemoveB : ServerState :=
  (printJob threeFileState (some 1) 11 "Office_Laser" true).2

/-- Mid-ending: `activeSessionId` and `fileUploadDir` already cleared, the
container/cleanup work still pending. -/
def endingState : ServerState := (endSessionBegin oneFileState).2

/-- Session 1 ended normally (cwd = `__dirname`, so the cleanup found the
directory). -/
def endedState : ServerState := (endSessionFinish endingState true).2

/-- Fresh process whose working directory differs from `__dirname`. -/
def misBootState : ServerState := initState "/app/backend" "/data"

def misProvState : ServerState := (startSessionBegin misBootState 5).2

def misActiveState : ServerState := (startSessionFinish misProvState 5 (some 9)).2

def misOneFileState : ServerState := (upload misActiveState (some 5) (some fileA)).2

def misEndedState : ServerState :=
  (endSessionFinish (endSessionBegin misOneFileState).2 true).2

/-! ### C1: ticket numbering -/

/-- C1 (amended): the ticket assigned on enqueue is the current queue length
plus one (`sessionFiles[sessionId].length + 1`), not a removal-independent
enqueue counter; after removals the next ticket repeats an already-issued
number. -/
theorem upload_ticket_is_queue_length_succ
    (st : ServerState) (a : Nat) (d : String) (files : List FileRecord)
    (f : UploadFile)
    (h1 : st.activeSessionId = some a)
    (h2 : st.fileUploadDir = some d)
    (h3 : lookupSession st.sessionFiles a = some files) :
    (upload st (some a) (some f)).1 = Resp.uploaded (files.length + 1) := by
  simp [upload, h1, h2, h3]

/-- C1 witness: in the active one-session state the first enqueue gets
ticket 1 (queue length 0 plus one). -/
theorem upload_ticket_is_queue_length_succ_witness :
    (upload activeState (some 1) (some fileA)).1 = Resp.uploaded 1 := by
  have h := upload_ticket_is_queue_length_succ activeState 1 "uploads/session_1"
    [] fileA (by decide) (by decide) (by decide)
  exact h

/-- C1 counterexample: enqueue A, B, C (tickets 1, 2, 3), remove B by a
successful real-printer dispatch, then enqueue D: the code assigns ticket 3
— a reuse of C's ticket — not 4 as the claim states. -/
theorem ticket_after_removal_reused_cex :
    (upload afterRemoveB (some 1) (some fileD)).1 = Resp.uploaded 3 ∧
    Resp.uploaded 3 ≠ Resp.uploaded 4 ∧
    (lookupSession afterRemoveB.sessionFiles 1).map
      (fun l => l.map (fun r => r.ticketNumber)) = some [1, 3] := by
  decide

/-! ### C3: provisioning-failure rollback -/

/-- C3 (amended): when provisioning fails, the catch block resets
`activeSessionId`, `fileUploadDir` and the container reference, the state
machine is back in Idle and `ProvisioningFailed` is surfaced; however the
per-session file-record collection created for the failed session id is not
removed — an empty `sessionFiles` entry for that id remains. -/
theorem provisioning_rollback_amended
    (st st1 : ServerState) (sid : Nat)
    (h : startSessionBegin st sid = (none, st1)) :
    (startSessionFinish st1 sid none).1 = Resp.provisioningFailed ∧
    (startSessionFinish st1 sid none).2.activeSessionId = none ∧
    (startSessionFinish st1 sid none).2.fileUploadDir = none ∧
    (startSessionFinish st1 sid none).2.container = none ∧
    (startSessionFinish st1 sid none).2.phase = Phase.idle ∧
    lookupSession (startSessionFinish st1 sid none).2.sessionFiles sid
      = some [] := by
  unfold startSessionBegin at h
  split at h
  · exact absurd (Prod.mk.injEq .. ▸ h).1 (by simp)
  · have h2 := (Prod.mk.injEq .. ▸ h).2
    subst h2
    refine ⟨rfl, rfl, rfl, rfl, rfl, ?_⟩
    simpa [startSessionFinish] using lookup_setSession_same st.sessionFiles sid []

/-- C3 witness: failing the provisioning of session 1 surfaces the error and
leaves the empty collection for id 1 behind. -/
theorem provisioning_rollback_amended_witness :
    (startSessionFinish provState 1 none).1 = Resp.provisioningFailed ∧
    lookupSession (startSessionFinish provState 1 none).2.sessionFiles 1
      = some [] := by
  have h := provisioning_rollback_amended bootState provState 1 (by decide)
  exact ⟨h.1, h.2.2.2.2.2⟩

/-- C3 counterexample: after the rollback for failed session 1 the state
still holds a session-keyed entry (`some []`, not `none`) for that id,
contradicting "no residual session-keyed state". -/
theorem provisioning_rollback_residual_entry_cex :
    (startSessionFinish provState 1 none).2.activeSessionId = none ∧
    lookupSession (startSessionFinish provState 1 none).2.sessionFiles 1
      = some [] ∧
    (some [] : Option (List FileRecord)) ≠ none := by
  decide

/-! ### C4: which states accept uploads -/

/-- C4 (amended): an upload is accepted exactly when the supplied sessionId
equals the non-null `activeSessionId` and a file is attached — the phase is
not consulted.  `activeSessionId` is set before provisioning completes, so
an upload carrying the session id during Provisioning is accepted; during
Ending both `activeSessionId` and `fileUploadDir` have been cleared, so
uploads are rejected (multer error with a file, invalid-session without). -/
theorem upload_acceptance_by_session_id
    (st stA stB : ServerState) (a : Nat) (d : String)
    (files : List FileRecord) (f : UploadFile)
    (h1 : st.activeSessionId = some a)
    (h2 : st.fileUploadDir = some d)
    (h3 : lookupSession st.sessionFiles a = some files)
    (hE : endSessionBegin stA = (none, stB)) :
    ((upload st (some a) (some f)).1 = Resp.uploaded (files.length + 1)) ∧
    (∀ rs : Nat, rs ≠ a →
       (upload st (some rs) (some f)).1 = Resp.invalidSession) ∧
    ((upload st none (some f)).1 = Resp.invalidSession) ∧
    stB.activeSessionId = none ∧
    stB.fileUploadDir = none ∧
    stB.phase = Phase.ending ∧
    (∀ (rs : Option Nat) (g : UploadFile),
       (upload stB rs (some g)).1 = Resp.multerError) ∧
    (∀ rs : Option Nat, (upload stB rs none).1 = Resp.invalidSession) := by
  unfold endSessionBegin at hE
  split at hE
  · exact absurd (Prod.mk.injEq .. ▸ hE).1 (by simp)
  · have hB := (Prod.mk.injEq .. ▸ hE).2
    subst hB
    refine ⟨?_, ?_, ?_, rfl, rfl, rfl, ?_, ?_⟩
    · simp [upload, h1, h2, h3]
    · intro rs hrs
      simp [upload, h1, h2, hrs]
    · simp [upload, h1, h2]
    · intro rs g
      simp [upload]
    · intro rs
      cases rs <;> simp [upload]

/-- C4 witness: in the running session the matching upload is accepted with
ticket 1, a mismatched id is rejected, and after `endSessionBegin` every
upload carrying a file fails in the multer middleware. -/
theorem upload_acceptance_by_session_id_witness :
    (upload activeState (some 1) (some fileA)).1 = Resp.uploaded 1 ∧
    (upload activeState (some 2) (some fileA)).1 = Resp.invalidSession ∧
    (upload endingState (some 1) (some fileB)).1 = Resp.multerError := by
  have h := upload_acceptance_by_session_id activeState oneFileState endingState
    1 "uploads/session_1" [] fileA (by decide) (by decide) (by decide) (by decide)
  exact ⟨h.1, h.2.1 2 (by decide), h.2.2.2.2.2.2.1 (some 1) fileB⟩

/-- C4 counterexample: in the Provisioning window (container not yet
created) an upload carrying the session id is accepted, not rejected. -/
theorem upload_accepted_during_provisioning_cex :
    provState.phase = Phase.provisioning ∧
    provState.container = none ∧
    (upload provState (some 1) (some fileA)).1 = Resp.uploaded 1 ∧
    Resp.uploaded 1 ≠ Resp.invalidSession := by
  decide

/-! ### C6: StartSession while not Idle -/

/-- C6 (amended): `StartSession` fails with the conflict error and leaves
the state unchanged exactly while `activeSessionId` is non-null (the Active
and Provisioning windows).  During the Ending window `activeSessionId` has
already been cleared, so a `StartSession` issued then passes the guard and
starts a fresh session. -/
theorem start_session_conflict_amended
    (st stA stB : ServerState) (a sid sid2 : Nat)
    (h : st.activeSessionId = some a)
    (hE : endSessionBegin stA = (none, stB)) :
    startSessionBegin st sid = (some Resp.conflict, st) ∧
    stB.phase = Phase.ending ∧
    stB.activeSessionId = none ∧
    (startSessionBegin stB sid2).1 = none ∧
    (startSessionBegin stB sid2).2.activeSessionId = some sid2 := by
  unfold endSessionBegin at hE
  split at hE
  · exact absurd (Prod.mk.injEq .. ▸ hE).1 (by simp)
  · have hB := (Prod.mk.injEq .. ▸ hE).2
    subst hB
    refine ⟨?_, rfl, rfl, ?_, ?_⟩
    · simp [startSessionBegin, h]
    · simp [startSessionBegin]
    · simp [startSessionBegin]

/-- C6 witness: a second StartSession against the active session conflicts
and changes nothing, while one issued mid-Ending is accepted. -/
theorem start_session_conflict_amended_witness :
    startSessionBegin activeState 2 = (some Resp.conflict, activeState) ∧
    (startSessionBegin endingState 2).1 = none := by
  have h := start_session_conflict_amended activeState oneFileState endingState
    1 2 2 (by decide) (by decide)
  exact ⟨h.1, h.2.2.2.1⟩

/-- C6 counterexample: while the session is Ending (teardown in flight) a
StartSession does not fail with the conflict error — it is accepted and
installs a new session id. -/
theorem start_session_during_ending_succeeds_cex :
    endingState.phase = Phase.ending ∧
    (startSessionBegin endingState 2).1 = none ∧
    (some Resp.conflict : Option Resp) ≠ none ∧
    (startSessionBegin endingState 2).2.activeSessionId = some 2 := by
  decide

/-! ### C5: end-session payload cleanup -/

/-- C5 (code bug, evaluated at the failing input): multer stores payloads
under `path.join(__dirname, fileUploadDir)`, but `cleanupSessionFiles`
receives the bare relative `fileUploadDir` string, which `fs.existsSync`
resolves against the process working directory.  With cwd `/data` and
`__dirname` `/app/backend`, ending session 5 reports success, reaches Idle
and emits `session-ended`, yet the uploaded payload is still on disk; when
cwd happens to equal `__dirname` the same sequence does delete it. -/
theorem end_session_orphans_payload_on_cwd_mismatch :
    (endSessionFinish (endSessionBegin misOneFileState).2 true).1
      = Resp.okEnded ∧
    misEndedState.activeSessionId = none ∧
    misEndedState.phase = Phase.idle ∧
    eventCount misEndedState.events (Event.sessionEnded 5) = 1 ∧
    "/app/backend/uploads/session_5/u1-report.pdf" ∈ misEndedState.disk ∧
    endedState.disk = [] := by
  decide

/-! ### C8: real-printer dispatch failure -/

/-- C8 (confirmed): for a non-simulation target whose spooler submission
fails, POST /print-job answers PrintFailed and returns the state completely
unchanged — the record is still in the queue, the payload still on disk, and
no file-deleted notification was emitted. -/
theorem print_failure_preserves_record
    (st : ServerState) (a fid : Nat) (files : List FileRecord)
    (r : FileRecord) (pn : String)
    (h1 : st.activeSessionId = some a)
    (h2 : lookupSession st.sessionFiles a = some files)
    (h3 : files.find? (fun f => f.id = fid) = some r)
    (h4 : pn ≠ "Secure_Virtual_Printer") :
    printJob st (some a) fid pn false = (Resp.printFailed, st) ∧
    lookupSession (printJob st (some a) fid pn false).2.sessionFiles a
      = some files ∧
    (printJob st (some a) fid pn false).2.events = st.events := by
  have hmain : printJob st (some a) fid pn false = (Resp.printFailed, st) := by
    simp [printJob, h1, h2, h3, h4]
  exact ⟨hmain, by rw [hmain]; exact h2, by rw [hmain]⟩

/-- C8 witness: dispatching file B to the failing Office_Laser leaves the
three-file queue untouched. -/
theorem print_failure_preserves_record_witness :
    printJob threeFileState (some 1) 11 "Office_Laser" false
      = (Resp.printFailed, threeFileState) := by
  have h := print_failure_preserves_record threeFileState 1 11
    [recA, recB, recC] recB "Office_Laser" (by decide) (by decide)
    (by decide) (by decide)
  exact h.1

/-! ### C9: idempotent base-image build -/

theorem builtCount_zero_of_contains (st : ServerState)
    (h : st.dockerImages.contains BASE_IMAGE_NAME = true) (bs : List Bool) :
    builtCount st bs = 0 := by
  have hm : BASE_IMAGE_NAME ∈ st.dockerImages := by simpa using h
  induction bs with
  | nil => rfl
  | cons b rest ih => simp [builtCount, ensureBaseImage, h, hm, ih]

/-- C9 (confirmed): `ensureBaseImage` checks the daemon's image listing
before building; a build happens only when the image is absent, it installs
the image, every later call is a skipping no-op, and over any sequence of
calls after a successful build the total number of builds is exactly one. -/
theorem ensure_base_image_builds_at_most_once
    (st st2 : ServerState) (b : Bool)
    (h : ensureBaseImage st b = (BuildOutcome.built, st2)) :
    st.dockerImages.contains BASE_IMAGE_NAME = false ∧
    st2.dockerImages.contains BASE_IMAGE_NAME = true ∧
    (∀ b2 : Bool, ensureBaseImage st2 b2 = (BuildOutcome.skipped, st2)) ∧
    (∀ bs : List Bool, builtCount st (b :: bs) = 1) := by
  unfold ensureBaseImage at h
  by_cases h1 : st.dockerImages.contains BASE_IMAGE_NAME = true
  · rw [if_pos h1] at h
    simp at h
  · rw [if_neg h1] at h
    cases b with
    | false => simp at h
    | true =>
        rw [if_pos rfl] at h
        have hst2 : ({ st with dockerImages :=
            BASE_IMAGE_NAME :: st.dockerImages } : ServerState) = st2 :=
          (Prod.mk.injEq .. ▸ h).2
        subst hst2
        have hcontains : ({ st with dockerImages :=
            BASE_IMAGE_NAME :: st.dockerImages } :
            ServerState).dockerImages.contains BASE_IMAGE_NAME = true := by
          simp
        refine ⟨by simpa using h1, hcontains, ?_, ?_⟩
        · intro b2
          unfold ensureBaseImage
          rw [if_pos hcontains]
        · intro bs
          have hstep : ensureBaseImage st true
              = (BuildOutcome.built,
                 { st with dockerImages :=
                     BASE_IMAGE_NAME :: st.dockerImages }) := by
            unfold ensureBaseImage
            rw [if_neg h1, if_pos rfl]
          have hz := builtCount_zero_of_contains
            { st with dockerImages := BASE_IMAGE_NAME :: st.dockerImages }
            hcontains bs
          simp [builtCount, hstep, hz]

/-- C9 witness: on a daemon with no images the first call builds, and
afterwards three further calls perform zero builds. -/
theorem ensure_base_image_builds_at_most_once_witness :
    builtCount bootState [true, true, false, true] = 1 ∧
    ensureBaseImage (ensureBaseImage bootState true).2 false
      = (BuildOutcome.skipped, (ensureBaseImage bootState true).2) := by
  have h := ensure_base_image_builds_at_most_once bootState
    (ensureBaseImage bootState true).2 true (by decide)
  exact ⟨h.2.2.2 [true, false, true], h.2.2.1 false⟩

/-! ### C10: payload written before the session check -/

/-- The absolute path multer stores an upload under:
`path.join(__dirname, fileUploadDir)` plus the random-component filename. -/
def storedPathFor (st : ServerState) (d : String) (f : UploadFile) : String :=
  pathJoin (pathJoin st.dirname d) (f.storedUuid ++ "-" ++ f.originalname)

/-- C10 (confirmed): while a session is active, an upload whose sessionId is
missing or non-matching is answered with the invalid-session error, yet its
payload was already written by the multer middleware into the active
session's storage directory.  The state differs from the pre-request state
only in the filesystem: the queue, timers and notifications are untouched
(never enqueued, no ticket, no TTL registration), and any later TTL or
sink callback — whose captured record is some enqueued record, hence has a
different path — leaves the orphaned payload on disk. -/
theorem rejected_upload_payload_not_tracked
    (st : ServerState) (a : Nat) (d : String) (rs : Option Nat) (f : UploadFile)
    (h1 : st.activeSessionId = some a)
    (h2 : st.fileUploadDir = some d)
    (h3 : rs ≠ some a) :
    (upload st rs (some f)).1 = Resp.invalidSession ∧
    (upload st rs (some f)).2 =
      { st with
         dirs := insertString st.dirs (pathJoin st.dirname d),
         disk := insertString st.disk (storedPathFor st d f) } ∧
    storedPathFor st d f ∈ (upload st rs (some f)).2.disk ∧
    (∀ (sid2 : Nat) (r2 : FileRecord), r2.path ≠ storedPathFor st d f →
       storedPathFor st d f ∈ (ttlFire (upload st rs (some f)).2 sid2 r2).disk ∧
       storedPathFor st d f
         ∈ (sinkFire (upload st rs (some f)).2 sid2 r2).2.disk) := by
  have hstate : upload st rs (some f) =
      (Resp.invalidSession,
       { st with
          dirs := insertString st.dirs (pathJoin st.dirname d),
          disk := insertString st.disk (storedPathFor st d f) }) := by
    cases rs with
    | none => simp [upload, h1, h2, storedPathFor]
    | some x =>
        have hx : x ≠ a := fun e => h3 (by rw [e])
        simp [upload, h1, h2, hx, storedPathFor]
  have hdisk : storedPathFor st d f ∈ (upload st rs (some f)).2.disk := by
    rw [hstate]
    exact mem_insertString st.disk (storedPathFor st d f)
  refine ⟨by rw [hstate], by rw [hstate], hdisk, ?_⟩
  intro sid2 r2 hne
  exact ⟨mem_disk_ttlFire _ sid2 r2 _ hdisk hne.symm,
         mem_disk_sinkFire _ sid2 r2 _ hdisk hne.symm⟩

/-- C10 witness: with session 1 active and one file queued, an upload
carrying sessionId 99 is rejected but its payload appears (and stays) in
the session-1 storage directory. -/
theorem rejected_upload_payload_not_tracked_witness :
    (upload oneFileState (some 99) (some fileB)).1 = Resp.invalidSession ∧
    "/app/backend/uploads/session_1/u2-photo.jpg"
      ∈ (upload oneFileState (some 99) (some fileB)).2.disk ∧
    "/app/backend/uploads/session_1/u2-photo.jpg"
      ∈ (ttlFire (upload oneFileState (some 99) (some fileB)).2 1 recA).disk := by
  have h := rejected_upload_payload_not_tracked oneFileState 1
    "uploads/session_1" (some 99) fileB (by decide) (by decide) (by decide)
  exact ⟨h.1, h.2.2.1, (h.2.2.2 1 recA (by decide)).1⟩

/-! ### C7: error paths and the four-state machine -/

theorem cleanup_activeSessionId_eq (st : ServerState) (sid : Nat)
    (dir : Option String) :
    (cleanupSessionFiles st sid dir).activeSessionId = st.activeSessionId := by
  cases dir with
  | none => rfl
  | some d =>
      simp only [cleanupSessionFiles]
      split <;> rfl

/-- C7 (confirmed): no error path leaves the session machine outside its
four phases.  After a provisioning failure the machine is Idle with no
active id and the next StartSession passes the guard and re-enters
Provisioning; after EndSession — whether the cleanup fs work succeeds or
throws (the 500 branch) — the machine is Idle with no active id and the
next StartSession proceeds per its contract; upload and dispatch never move
the phase on any of their paths. -/
theorem error_paths_keep_state_machine_defined
    (st0 st1 stA stB stU : ServerState) (sid sid2 : Nat)
    (hStart : startSessionBegin st0 sid = (none, st1))
    (hEnd : endSessionBegin stA = (none, stB)) :
    ((startSessionFinish st1 sid none).2.phase = Phase.idle ∧
     (startSessionFinish st1 sid none).2.activeSessionId = none ∧
     (startSessionBegin (startSessionFinish st1 sid none).2 sid2).1 = none ∧
     (startSessionBegin (startSessionFinish st1 sid none).2 sid2).2.activeSessionId
       = some sid2 ∧
     (startSessionBegin (startSessionFinish st1 sid none).2 sid2).2.phase
       = Phase.provisioning) ∧
    (∀ co : Bool,
     (endSessionFinish stB co).2.phase = Phase.idle ∧
     (endSessionFinish stB co).2.activeSessionId = none ∧
     (startSessionBegin (endSessionFinish stB co).2 sid2).1 = none ∧
     (startSessionBegin (endSessionFinish stB co).2 sid2).2.activeSessionId
       = some sid2) ∧
    (∀ (rs : Option Nat) (fo : Option UploadFile),
       (upload stU rs fo).2.phase = stU.phase) ∧
    (∀ (rs : Option Nat) (fid : Nat) (pn : String) (b : Bool),
       (printJob stU rs fid pn b).2.phase = stU.phase) := by
  unfold startSessionBegin at hStart
  split at hStart
  · exact absurd (Prod.mk.injEq .. ▸ hStart).1 (by simp)
  · have h1 := (Prod.mk.injEq .. ▸ hStart).2
    subst h1
    unfold endSessionBegin at hEnd
    split at hEnd
    · exact absurd (Prod.mk.injEq .. ▸ hEnd).1 (by simp)
    · have hB := (Prod.mk.injEq .. ▸ hEnd).2
      subst hB
      refine ⟨?_, ?_, ?_, ?_⟩
      · simp [startSessionFinish, startSessionBegin]
      · intro co
        cases co with
        | false => simp [endSessionFinish, startSessionBegin]
        | true =>
            simp [endSessionFinish, startSessionBegin,
              cleanup_activeSessionId_eq]
      · intro rs fo
        exact upload_preserves_phase stU rs fo
      · intro rs fid pn b
        exact printJob_preserves_phase stU rs fid pn b

/-- C7 witness: concretely, a failed provisioning of session 1 and an
end-session whose cleanup throws both land in Idle, from which a new
StartSession passes the guard. -/
theorem error_paths_keep_state_machine_defined_witness :
    (startSessionFinish provState 1 none).2.phase = Phase.idle ∧
    (startSessionBegin (startSessionFinish provState 1 none).2 2).1 = none ∧
    (endSessionFinish endingState false).2.phase = Phase.idle ∧
    (startSessionBegin (endSessionFinish endingState false).2 2).1 = none := by
  have h := error_paths_keep_state_machine_defined bootState provState
    oneFileState endingState activeState 1 2 (by decide) (by decide)
  exact ⟨h.1.1, h.1.2.2.1, (h.2.1 false).1, (h.2.1 false).2.2.1⟩

/-! ### C2: exactly-once removal -/

theorem endSessionAfter_sessionFiles (st : ServerState) (sid : Nat)
    (ha : st.activeSessionId = some sid) :
    (endSessionFinish (endSessionBegin st).2 true).2.sessionFiles
      = deleteSession st.sessionFiles sid := by
  simp [endSessionBegin, ha, endSessionFinish, cleanup_sessionFiles_eq]

theorem endSessionAfter_events (st : ServerState) (sid : Nat)
    (ha : st.activeSessionId = some sid) :
    (endSessionFinish (endSessionBegin st).2 true).2.events
      = st.events ++ [Event.sessionEnded sid] := by
  simp [endSessionBegin, ha, endSessionFinish, cleanup_events_eq]

/-- C2 (amended): removal is exactly-once between the TTL timer and the
print sink: whichever of the two fires first unlinks the payload, drops the
record and emits exactly one file-deleted notification, and the other then
observes the record gone and no-ops.  Session end, however, drops the
record and emits no per-file file-deleted notification at all, after which
a late TTL timer no-ops but a late simulation-sink callback raises a
TypeError (reading `.findIndex` of the deleted session entry) — it still
deletes nothing and notifies nothing. -/
theorem removal_exactly_once_amended
    (st : ServerState) (sid : Nat) (files : List FileRecord) (r : FileRecord)
    (ha : st.activeSessionId = some sid)
    (hf : lookupSession st.sessionFiles sid = some files)
    (hc : countById files r.id = 1)
    (hnd : (st.sessionFiles.map Prod.fst).Nodup) :
    ((ttlFire st sid r).events = st.events ++ [Event.fileDeleted sid r.id] ∧
     r.path ∉ (ttlFire st sid r).disk ∧
     ttlFire (ttlFire st sid r) sid r = ttlFire st sid r ∧
     sinkFire (ttlFire st sid r) sid r = (SinkOutcome.noop, ttlFire st sid r)) ∧
    ((sinkFire st sid r).1 = SinkOutcome.removed ∧
     (sinkFire st sid r).2.events
       = st.events ++ [Event.fileDeleted sid r.id] ∧
     r.path ∉ (sinkFire st sid r).2.disk ∧
     ttlFire (sinkFire st sid r).2 sid r = (sinkFire st sid r).2) ∧
    (lookupSession
        (endSessionFinish (endSessionBegin st).2 true).2.sessionFiles sid
       = none ∧
     eventCount (endSessionFinish (endSessionBegin st).2 true).2.events
        (Event.fileDeleted sid r.id)
       = eventCount st.events (Event.fileDeleted sid r.id) ∧
     ttlFire (endSessionFinish (endSessionBegin st).2 true).2 sid r
       = (endSessionFinish (endSessionBegin st).2 true).2 ∧
     (sinkFire (endSessionFinish (endSessionBegin st).2 true).2 sid r).1
       = SinkOutcome.typeError ∧
     (sinkFire (endSessionFinish (endSessionBegin st).2 true).2 sid r).2
       = (endSessionFinish (endSessionBegin st).2 true).2) := by
  have hhas : hasId files r.id = true :=
    hasId_true_of_countById_pos files r.id (by omega)
  have hzero : countById (removeFirstById files r.id) r.id = 0 := by
    rw [countById_removeFirstById, hc]
  have hfalse : hasId (removeFirstById files r.id) r.id = false :=
    hasId_false_of_countById_zero _ _ hzero
  have hT : ttlFire st sid r =
      { st with
         disk := st.disk.filter (fun p => p ≠ r.path),
         sessionFiles :=
           setSession st.sessionFiles sid (removeFirstById files r.id),
         events := st.events ++ [Event.fileDeleted sid r.id] } := by
    simp [ttlFire, hf, hhas]
  have hS : sinkFire st sid r =
      (SinkOutcome.removed,
       { st with
          sessionFiles :=
            setSession st.sessionFiles sid (removeFirstById files r.id),
          disk := st.disk.filter (fun p => p ≠ r.path),
          events := st.events ++ [Event.fileDeleted sid r.id] }) := by
    simp [sinkFire, hf, hhas]
  have hlkT : lookupSession (ttlFire st sid r).sessionFiles sid
      = some (removeFirstById files r.id) := by
    rw [hT]
    exact lookup_setSession_same st.sessionFiles sid _
  have hlkS : lookupSession (sinkFire st sid r).2.sessionFiles sid
      = some (removeFirstById files r.id) := by
    rw [hS]
    exact lookup_setSession_same st.sessionFiles sid _
  have hlkE : lookupSession
      (endSessionFinish (endSessionBegin st).2 true).2.sessionFiles sid
      = none := by
    rw [endSessionAfter_sessionFiles st sid ha]
    exact lookup_deleteSession_same st.sessionFiles sid hnd
  refine ⟨⟨?_, ?_, ?_, ?_⟩, ⟨?_, ?_, ?_, ?_⟩, ⟨hlkE, ?_, ?_, ?_, ?_⟩⟩
  · rw [hT]
  · rw [hT]
    simp [List.mem_filter]
  · exact ttlFire_of_hasId_false _ sid r _ hlkT hfalse
  · exact sinkFire_of_hasId_false _ sid r _ hlkT hfalse
  · rw [hS]
  · rw [hS]
  · rw [hS]
    simp [List.mem_filter]
  · exact ttlFire_of_hasId_false _ sid r _ hlkS hfalse
  · rw [endSessionAfter_events st sid ha, eventCount_append]
    simp [eventCount]
  · exact ttlFire_of_lookup_none _ sid r hlkE
  · rw [sinkFire_of_lookup_none _ sid r hlkE]
  · rw [sinkFire_of_lookup_none _ sid r hlkE]

/-- C2 witness: with file A queued in session 1, a TTL fire followed by a
second TTL fire or a sink fire performs no second removal, and after a
session end the sink callback raises the TypeError. -/
theorem removal_exactly_once_amended_witness :
    ttlFire (ttlFire oneFileState 1 recA) 1 recA
      = ttlFire oneFileState 1 recA ∧
    sinkFire (ttlFire oneFileState 1 recA) 1 recA
      = (SinkOutcome.noop, ttlFire oneFileState 1 recA) ∧
    (sinkFire (endSessionFinish (endSessionBegin oneFileState).2 true).2
        1 recA).1 = SinkOutcome.typeError := by
  have h := removal_exactly_once_amended oneFileState 1 [recA] recA
    (by decide) (by decide) (by decide) (by decide)
  exact ⟨h.1.2.2.1, h.1.2.2.2, h.2.2.2.2.2.1⟩

/-- C2 counterexample: when session end is the first removal trigger for
file A, zero file-deleted notifications are emitted for it (the claim
demands exactly one from the first trigger), and the later sink trigger
does not quietly no-op but raises a TypeError. -/
theorem session_end_emits_no_file_deleted_cex :
    eventCount endedState.events (Event.fileDeleted 1 10) = 0 ∧
    (0 : Nat) ≠ 1 ∧
    (sinkFire endedState 1 recA).1 = SinkOutcome.typeError := by
  decide
